import Mathlib

set_option autoImplicit false

namespace Colabtools

/-!
Shallow embedding of the cross-frame proxy and element-registry scripts of
the `googlecolab/colabtools` browser layer:

* the frame-walk transport (`proxy` in `_proxy.js`),
* the broadcast-channel transport (the second `proxy` variant),
* the element registry and message dispatcher (`_html.js`).

JavaScript objects are modelled as association lists over `String` keys,
promises as `Except`-valued results (with `Except.error` a rejected
promise), and the event loop's time by explicit `Nat` timestamps where a
claim needs them.  The model is tree-shaped: object graphs reached through
an element are rendered as trees, so an aliased in-place write becomes a
functional update along the walked path.
-/

/-! ## Frame-walk transport (`_proxy.js`, frame-walk variant)

The source iterates `window.parent.frames`; touching one frame either
throws (cross-origin), yields a page without the colab `html` global, or
yields an element registry.  `π` is the type of element proxies. -/

/-- What evaluating `frame.window.google.colab.html` for one sibling frame
yields: a thrown cross-origin error, a falsy `html` global, or a registry
mapping element ids to proxies (`none` models a falsy `html.elements[id]`). -/
inductive FrameAccess (π : Type) where
  | crossOrigin
  | noHtml
  | html (elements : String → Option π)

/-- One iteration of the frame loop: the proxy this frame contributes for
`id`, if any.  `crossOrigin` is the caught-and-swallowed error branch. -/
def frameMatch {π : Type} (id : String) : FrameAccess π → Option π
  | .crossOrigin => none
  | .noHtml => none
  | .html elements => elements id

/-- The `for` loop of the frame-walk `proxy`: scan the frames in index
order and stop at the first one whose registry has a (truthy) entry for
`id`. -/
def findProxy {π : Type} (id : String) : List (FrameAccess π) → Option π
  | [] => none
  | f :: rest =>
    match frameMatch id f with
    | some p => some p
    | none => findProxy id rest

/-- `proxy(id, msg, defaultResponse)`, frame-walk variant.  An element
proxy is a function from the message to `Except ε ρ`; `Except.error`
models a rejected promise from `elementProxy.call(msg)`, which the source
returns unchanged. -/
def frameWalkProxy {μ ε ρ : Type} (frames : List (FrameAccess (μ → Except ε ρ)))
    (id : String) (msg : μ) (defaultResponse : ρ) : Except ε ρ :=
  match findProxy id frames with
  | none => Except.ok defaultResponse
  | some elementProxy => elementProxy msg

/-! ## JavaScript values and errors -/

/-- JavaScript values, as far as the scripts manipulate them.  `fn` is an
opaque function reference identified by a token. -/
inductive JsVal where
  | undef
  | null
  | bool (b : Bool)
  | num (n : Int)
  | str (s : String)
  | arr (elems : List JsVal)
  | obj (fields : List (String × JsVal))
  | fn (ref : Nat)

/-- JavaScript truthiness, used by `if (html)`, `if (elementProxy)`,
`if (reply.error)` and the config-section guards. -/
def truthy : JsVal → Bool
  | .undef => false
  | .null => false
  | .bool b => b
  | .num n => n != 0
  | .str s => s != ""
  | .arr _ => true
  | .obj _ => true
  | .fn _ => true

/-- JavaScript `String(v)` coercion as used by `new Error(reply.error)` and
`setAttribute`.  Arrays stringify to their comma-joined elements. -/
def jsToString : JsVal → String
  | .undef => "undefined"
  | .null => "null"
  | .bool b => if b then "true" else "false"
  | .num n => toString n
  | .str s => s
  | .arr [] => ""
  | .arr [v] => jsToString v
  | .arr (v :: w :: rest) => jsToString v ++ "," ++ jsToString (JsVal.arr (w :: rest))
  | .obj _ => "[object Object]"
  | .fn _ => "function"

/-- Whether `v` survives the structured-clone algorithm used by
`BroadcastChannel.postMessage`: function values do not and make the post
throw `DataCloneError`. -/
def cloneable : JsVal → Bool
  | .undef => true
  | .null => true
  | .bool _ => true
  | .num _ => true
  | .str _ => true
  | .fn _ => false
  | .arr [] => true
  | .arr (v :: rest) => cloneable v && cloneable (JsVal.arr rest)
  | .obj [] => true
  | .obj ((_, v) :: rest) => cloneable v && cloneable (JsVal.obj rest)

/-- Errors the scripts can raise.  `error` is a plain `new Error(message)`;
`typeError` and `referenceError` are the engine-raised kinds; and
`dataCloneError` is what `postMessage` throws on a non-cloneable payload. -/
inductive JsError where
  | error (message : String)
  | typeError (message : String)
  | referenceError (message : String)
  | dataCloneError

/-- Property read on an object rendered as an association list (first
binding wins; JavaScript object keys are unique anyway). -/
def lookupField : List (String × JsVal) → String → Option JsVal
  | [], _ => none
  | (k, v) :: rest, key => if k = key then some v else lookupField rest key

/-- Property write `o[key] = v` on an object rendered as an association
list: overwrite in place, or append a fresh binding. -/
def setField : List (String × JsVal) → String → JsVal → List (String × JsVal)
  | [], key, v => [(key, v)]
  | (k, w) :: rest, key, v =>
    if k = key then (k, v) :: rest else (k, w) :: setField rest key v

/-! ## Broadcast transport (`_proxy.js`, broadcast variant)

The call opens `new BroadcastChannel(id)`, attaches a fresh correlation
identifier as `msg.reply`, posts the message, then races the reply
listener against an optional 20-unit timer inside `try ... finally
bc.close()`.  Incoming channel traffic is modelled as a list of
`(arrival time, event data)` pairs in delivery order. -/

/-- The `data` of one incoming channel `message` event, with the fields
the listener inspects.  A missing field is `JsVal.undef`. -/
structure ChanMsg where
  method : JsVal
  id : JsVal
  error : JsVal
  value : JsVal

/-- JavaScript strict equality of a value against a string literal, as in
`reply.method === 'reply'` and `reply.id === respId`. -/
def strictEqStr (v : JsVal) (s : String) : Bool :=
  match v with
  | .str t => t == s
  | _ => false

/-- The reply listener's filter: `reply.method === 'reply' && reply.id ===
respId`. -/
def bcMatches (respId : String) (m : ChanMsg) : Bool :=
  strictEqStr m.method "reply" && strictEqStr m.id respId

/-- The `.then` continuation on the winning reply: a truthy `error` field
becomes `throw new Error(reply.error)`, otherwise the call resolves with
`reply.value`. -/
def replyOutcome (m : ChanMsg) : Except JsError JsVal :=
  if truthy m.error then Except.error (JsError.error (jsToString m.error))
  else Except.ok m.value

/-- Observable outcome of one broadcast `proxy` call.  `result = none`
means the returned promise never settles; `settleTime` is the event-loop
time at which it settles; `channelClosed` records whether `bc.close()` ran;
`msgAfter` is the caller's message object after the call. -/
structure BcOutcome where
  result : Option (Except JsError JsVal)
  settleTime : Option Nat
  channelClosed : Bool
  msgAfter : List (String × JsVal)

/-- `proxy(id, msg, defaultResponse)`, broadcast variant, for a fixed
generated correlation identifier `respId` (`'id' + Math.random()` in the
source) and channel traffic `trace`.

* `msg.reply = respId` mutates the caller's message before anything else.
* `bc.postMessage(msg)` sits before the `try`: on a non-cloneable message
  it throws `DataCloneError`, the async call rejects at once, and the
  `finally bc.close()` is never entered.
* Otherwise the race is decided by the first trace entry passing
  `bcMatches` against the 20-unit timer that exists only when
  `defaultResponse` is not `undefined` (`none`); with no timer and no
  matching reply the promise never settles and the `finally` never runs. -/
def broadcastProxy (respId : String) (msg : List (String × JsVal))
    (defaultResponse : Option JsVal) (trace : List (Nat × ChanMsg)) : BcOutcome :=
  let msg2 := setField msg "reply" (JsVal.str respId)
  if cloneable (JsVal.obj msg2) then
    match trace.find? (fun tm => bcMatches respId tm.2), defaultResponse with
    | some (t, m), some d =>
      if t < 20 then
        { result := some (replyOutcome m), settleTime := some t,
          channelClosed := true, msgAfter := msg2 }
      else
        { result := some (Except.ok d), settleTime := some 20,
          channelClosed := true, msgAfter := msg2 }
    | some (t, m), none =>
        { result := some (replyOutcome m), settleTime := some t,
          channelClosed := true, msgAfter := msg2 }
    | none, some d =>
        { result := some (Except.ok d), settleTime := some 20,
          channelClosed := true, msgAfter := msg2 }
    | none, none =>
        { result := none, settleTime := none,
          channelClosed := false, msgAfter := msg2 }
  else
    { result := some (Except.error JsError.dataCloneError), settleTime := some 0,
      channelClosed := false, msgAfter := msg2 }

/-! ## Element registry and message dispatcher (`_html.js`)

The dispatcher operates on one DOM element (its property graph, attribute
map and attached listeners) plus the script-global `callbacks` map.
Closures made by `new Function` (or the python-listener wrapper) are
identified by fresh numeric references drawn from a counter. -/

/-- Property read `o[k]` for an arbitrary value `o`: reading a property of
`undefined`/`null` throws a `TypeError`; objects look the key up (an
absent key reads as `undefined`); remaining values box to wrappers whose
own properties this model does not populate, so they read as `undefined`. -/
def getProp : JsVal → String → Except JsError JsVal
  | .undef, k => .error (.typeError ("Cannot read properties of undefined (reading " ++ k ++ ")"))
  | .null, k => .error (.typeError ("Cannot read properties of null (reading " ++ k ++ ")"))
  | .obj fields, k => .ok ((lookupField fields k).getD JsVal.undef)
  | _, _ => .ok JsVal.undef

/-- `accessor.split('.')` over the accessor's characters (structural, so
concrete accessors evaluate): JavaScript `String.prototype.split` with a
single-character separator; the empty string splits to `[""]`. -/
def splitDots : List Char → List String
  | [] => [""]
  | c :: rest =>
    if c = '.' then "" :: splitDots rest
    else
      match splitDots rest with
      | [] => [String.mk [c]]
      | w :: ws => String.mk (c :: w.data) :: ws

/-- The loop of `dotAccess`: `name` starts `undefined`; each segment first
shifts the previous `name` into a property read on `obj`, so all segments
but the last are walked and the last becomes the member name. -/
def dotWalk (obj : JsVal) (name : Option String) : List String → Except JsError (JsVal × Option String)
  | [] => Except.ok (obj, name)
  | n :: rest =>
    match name with
    | none => dotWalk obj (some n) rest
    | some m =>
      match getProp obj m with
      | .error e => .error e
      | .ok o => dotWalk o (some n) rest

/-- `dotAccess(target, accessor)`: split on `.`, walk every segment but
the last, and return the owning object with the final member name.  The
split never yields an empty list, so the `""` fallback is dead code. -/
def dotAccess (target : JsVal) (accessor : String) : Except JsError (JsVal × String) :=
  match dotWalk target none (splitDots accessor.data) with
  | .error e => .error e
  | .ok (o, n) => .ok (o, n.getD "")

/-- Path view of the `dotAccess` walk: fold `getProp` over segments. -/
def walkPath (target : JsVal) : List String → Except JsError JsVal
  | [] => Except.ok target
  | p :: rest =>
    match getProp target p with
    | .error e => .error e
    | .ok o => walkPath o rest

/-- The last split segment — the member name `dotAccess` returns. -/
def lastSeg (segs : List String) : String := segs.getLastD ""

/-- Functional rendering of the aliased write `obj[name] = msg.value`
performed after the `dotAccess` walk: descend along the walked path,
write member `k` at the owner, and rebuild the spine.  Writing a property
on `undefined`/`null` throws a `TypeError`; a write on a boxed primitive
is silently discarded, as in sloppy mode. -/
def setAtPath (target : JsVal) (path : List String) (k : String) (v : JsVal) : Except JsError JsVal :=
  match path with
  | [] =>
    match target with
    | .obj fields => .ok (.obj (setField fields k v))
    | .undef => .error (.typeError ("Cannot set properties of undefined (setting " ++ k ++ ")"))
    | .null => .error (.typeError ("Cannot set properties of null (setting " ++ k ++ ")"))
    | other => .ok other
  | p :: rest =>
    match getProp target p with
    | .error e => .error e
    | .ok child =>
      match setAtPath child rest k v with
      | .error e => .error e
      | .ok child2 =>
        match target with
        | .obj fields => .ok (.obj (setField fields p child2))
        | other => .ok other

/-- The premise under which a dot path round-trips: the walked segments
resolve through real objects down to an object owner. -/
def ownerIsObj : JsVal → List String → Bool
  | .obj _, [] => true
  | .obj fields, p :: rest => ownerIsObj ((lookupField fields p).getD JsVal.undef) rest
  | _, _ => false

/-- A DOM element as the dispatcher sees it: its JavaScript property graph
(rooted at the element object itself), its attribute map, and the attached
event listeners as `(event type, closure reference)` pairs. -/
structure Element where
  props : JsVal
  attrs : List (String × String)
  listeners : List (String × Nat)

/-- `SameValueZero`, the key equality of a JavaScript `Map`.  Distinct
object/array literals are distinct references and compare unequal; the
registry keys used by the scripts are strings, compared structurally. -/
def sameValueZero : JsVal → JsVal → Bool
  | .undef, .undef => true
  | .null, .null => true
  | .bool a, .bool b => a == b
  | .num a, .num b => a == b
  | .str a, .str b => a == b
  | .fn a, .fn b => a == b
  | _, _ => false

/-- The element being dispatched on together with the script-global
`callbacks` map.  `nextId` draws the reference of the next closure created
by `new Function` or the python-listener wrapper: closures are fresh
objects, so every registration gets a reference no earlier closure has. -/
structure DispatchState where
  element : Element
  callbacks : List (JsVal × Nat)
  nextId : Nat

/-- `callbacks.get`/`has`. -/
def lookupCb : List (JsVal × Nat) → JsVal → Option Nat
  | [], _ => none
  | (k, c) :: rest, key => if sameValueZero k key then some c else lookupCb rest key

/-- `callbacks.set`: overwrite the entry holding the key, or append. -/
def setCb : List (JsVal × Nat) → JsVal → Nat → List (JsVal × Nat)
  | [], key, c => [(key, c)]
  | (k, c') :: rest, key, c =>
    if sameValueZero k key then (k, c) :: rest else (k, c') :: setCb rest key c

/-- `callbacks.delete`: the key is gone afterwards. -/
def eraseCb (l : List (JsVal × Nat)) (key : JsVal) : List (JsVal × Nat) :=
  l.filter (fun p => !(sameValueZero p.1 key))

/-- `EventTarget.addEventListener`: appends the listener, except that
re-adding an already-attached `(type, callback)` pair is a no-op. -/
def addListener (ls : List (String × Nat)) (ty : String) (cb : Nat) : List (String × Nat) :=
  if (ty, cb) ∈ ls then ls else ls ++ [(ty, cb)]

/-- `EventTarget.removeEventListener`: detach the `(type, callback)` pair. -/
def removeListener (ls : List (String × Nat)) (ty : String) (cb : Nat) : List (String × Nat) :=
  ls.filter (fun p => !(p.1 == ty && p.2 == cb))

/-- `addJsEventListener(element, type, callbackSrc)`: compile the source
into a fresh closure, store it in `callbacks` keyed by the raw source
value, and attach it to the element. -/
def addJsEventListener (s : DispatchState) (ty : String) (callbackSrc : JsVal) : DispatchState :=
  { element := { s.element with listeners := addListener s.element.listeners ty s.nextId },
    callbacks := setCb s.callbacks callbackSrc s.nextId,
    nextId := s.nextId + 1 }

/-- `addPythonEventListener(element, type, callbackName)`: same shape, the
registry key is the callback name and the fresh closure forwards a
JSON-safe copy of the event to the kernel. -/
def addPythonEventListener (s : DispatchState) (ty : String) (callbackName : JsVal) : DispatchState :=
  { element := { s.element with listeners := addListener s.element.listeners ty s.nextId },
    callbacks := setCb s.callbacks callbackName s.nextId,
    nextId := s.nextId + 1 }

/-- Attribute read: `getAttribute` answers the string or `null`. -/
def lookupAttr : List (String × String) → String → Option String
  | [], _ => none
  | (k, v) :: rest, key => if k = key then some v else lookupAttr rest key

/-- Attribute write: `setAttribute` coerces the value to a string. -/
def setAttr : List (String × String) → String → String → List (String × String)
  | [], key, v => [(key, v)]
  | (k, w) :: rest, key, v =>
    if k = key then (k, v) :: rest else (k, w) :: setAttr rest key v

/-- A dispatcher message `{method, name, value}`. -/
structure Msg where
  method : String
  name : String
  value : JsVal

/-- Spread `...msg.value` into an argument list: arrays spread to their
elements, strings to their characters, anything else throws. -/
def spreadArgs : JsVal → Except JsError (List JsVal)
  | .arr l => .ok l
  | .str s => .ok (s.data.map (fun c => JsVal.str (String.mk [c])))
  | _ => .error (.typeError "spread argument is not iterable")

/-- `processMessage(element, msg)` with the callback registry threaded
through.  `oracle` gives the meaning of invoking an application function
reference (the `call` arm); its effects on the element are outside this
model.  Every arm throws, if at all, before its mutation, so an error
leaves the state unchanged. -/
def processMessage (oracle : Nat → List JsVal → Except JsError JsVal)
    (s : DispatchState) (msg : Msg) : Except JsError (JsVal × DispatchState) :=
  match msg.method with
  | "setProperty" =>
    -- [obj, name] = dotAccess(element, msg.name); obj[name] = msg.value —
    -- the walk covers every segment but the last, and the write through
    -- the alias is a functional update along the walked path
    match setAtPath s.element.props (splitDots msg.name.data).dropLast
        (lastSeg (splitDots msg.name.data)) msg.value with
    | .error e => .error e
    | .ok props2 =>
      .ok (JsVal.bool true, { s with element := { s.element with props := props2 } })
  | "getProperty" =>
    match dotAccess s.element.props msg.name with
    | .error e => .error e
    | .ok (o, n) =>
      match getProp o n with
      | .error e => .error e
      | .ok v => .ok (v, s)
  | "setAttribute" =>
    .ok (JsVal.bool true,
      { s with element :=
        { s.element with attrs := setAttr s.element.attrs msg.name (jsToString msg.value) } })
  | "getAttribute" =>
    .ok ((match lookupAttr s.element.attrs msg.name with
          | some v => JsVal.str v
          | none => JsVal.null), s)
  | "call" =>
    match dotAccess s.element.props msg.name with
    | .error e => .error e
    | .ok (o, n) =>
      match getProp o n with
      | .error e => .error e
      | .ok f =>
        match spreadArgs msg.value with
        | .error e => .error e
        | .ok args =>
          match f with
          | .fn r =>
            match oracle r args with
            | .error e => .error e
            | .ok v => .ok (v, s)
          | _ => .error (.typeError (msg.name ++ " is not a function"))
  | "addPythonEventListener" =>
    .ok (JsVal.bool true, addPythonEventListener s msg.name msg.value)
  | "addJsEventListener" =>
    .ok (JsVal.bool true, addJsEventListener s msg.name msg.value)
  | "removeEventListener" =>
    match lookupCb s.callbacks msg.value with
    | some cb =>
      .ok (JsVal.bool true,
        { s with
          element := { s.element with
            listeners := removeListener s.element.listeners msg.name cb },
          callbacks := eraseCb s.callbacks msg.value })
    | none => .error (.error "Listener is not defined")
  | "exists" => .ok (JsVal.bool true, s)
  | _ => .error (.error "Invalid method")

/-- Dispatch `m1` then `m2` on the resulting state, answering `m2`'s
value. -/
def dispatchTwo (oracle : Nat → List JsVal → Except JsError JsVal)
    (s : DispatchState) (m1 m2 : Msg) : Except JsError JsVal :=
  match processMessage oracle s m1 with
  | .error e => .error e
  | .ok (_, s2) =>
    match processMessage oracle s2 m2 with
    | .error e => .error e
    | .ok (v, _) => .ok v

/-- Run a sequence of dispatched messages; a dispatch that throws leaves
the state unchanged. -/
def runMsgs (oracle : Nat → List JsVal → Except JsError JsVal)
    (s : DispatchState) : List Msg → DispatchState
  | [] => s
  | m :: rest =>
    match processMessage oracle s m with
    | .ok (_, s2) => runMsgs oracle s2 rest
    | .error _ => runMsgs oracle s rest

/-- A closure reference `c` attached to the element under `ty`, absent
from the callback registry's values, and older than the freshness counter:
once a registration is overwritten, its closure is in this state and no
dispatched message can ever detach it. -/
def orphanAttached (ty : String) (c : Nat) (s : DispatchState) : Prop :=
  (ty, c) ∈ s.element.listeners ∧ (∀ k c', (k, c') ∈ s.callbacks → c' ≠ c) ∧ c < s.nextId

/-! ## Registration (`initialize` and `createElement` in `_html.js`) -/

/-- `document.getElementById`. -/
def lookupElem : List (String × Element) → String → Option Element
  | [], _ => none
  | (k, el) :: rest, key => if k = key then some el else lookupElem rest key

/-- A registration config `{guid, tag, attributes?, properties?,
js_listeners?, py_listeners?}`; `none` models an absent (falsy) section. -/
structure Config where
  guid : String
  tag : String
  attributes : Option (List (String × JsVal))
  properties : Option (List (String × JsVal))
  js_listeners : Option (List (String × List JsVal))
  py_listeners : Option (List (String × List JsVal))

/-- `Object.keys(att).forEach(k => el.setAttribute(k, att[k]))`. -/
def applyAttrs (el : Element) : List (String × JsVal) → Element
  | [] => el
  | (k, v) :: rest => applyAttrs { el with attrs := setAttr el.attrs k (jsToString v) } rest

/-- `el[k] = props[k]` at the element root; the element object is a real
object, so the non-object arm is unreachable. -/
def setProp1 (el : Element) (k : String) (v : JsVal) : Element :=
  match el.props with
  | .obj fields => { el with props := JsVal.obj (setField fields k v) }
  | _ => el

/-- `Object.keys(props).forEach(k => el[k] = props[k])`. -/
def applyProps (el : Element) : List (String × JsVal) → Element
  | [] => el
  | (k, v) :: rest => applyProps (setProp1 el k v) rest

/-- One `js_listeners` entry: attach every callback source under `ty`. -/
def applyJsList1 (s : DispatchState) (ty : String) : List JsVal → DispatchState
  | [] => s
  | cb :: rest => applyJsList1 (addJsEventListener s ty cb) ty rest

/-- All `js_listeners` entries, in key order. -/
def applyJsListeners (s : DispatchState) : List (String × List JsVal) → DispatchState
  | [] => s
  | (ty, cbs) :: rest => applyJsListeners (applyJsList1 s ty cbs) rest

/-- One `py_listeners` entry: attach every callback name under `ty`. -/
def applyPyList1 (s : DispatchState) (ty : String) : List JsVal → DispatchState
  | [] => s
  | cb :: rest => applyPyList1 (addPythonEventListener s ty cb) ty rest

/-- All `py_listeners` entries, in key order. -/
def applyPyListeners (s : DispatchState) : List (String × List JsVal) → DispatchState
  | [] => s
  | (ty, cbs) :: rest => applyPyListeners (applyPyList1 s ty cbs) rest

/-- The deferred `initialize(config)` step of `_html.js` (named
`initElem` here).  It looks the element up by `config.guid`; on a missing
element the source executes
`throw new Error('No element found with id: ' + guid)` as a template
literal — but `guid` is declared nowhere in that function's scope (only
`createElement` has a local `guid`), so evaluating the template literal
raises `ReferenceError: guid is not defined` before any `Error` is
constructed.  On success it awaits the custom-element definition when the
tag is hyphenated (readiness is not modelled here), then applies
attributes, properties, JS listeners and python listeners in key order. -/
def initElem (doc : List (String × Element)) (callbacks : List (JsVal × Nat))
    (nextId : Nat) (config : Config) : Except JsError DispatchState :=
  match lookupElem doc config.guid with
  | none => .error (.referenceError "guid is not defined")
  | some el =>
    let el1 := match config.attributes with
      | some a => applyAttrs el a
      | none => el
    let el2 := match config.properties with
      | some p => applyProps el1 p
      | none => el1
    let s0 : DispatchState := { element := el2, callbacks := callbacks, nextId := nextId }
    let s1 := match config.js_listeners with
      | some l => applyJsListeners s0 l
      | none => s0
    let s2 := match config.py_listeners with
      | some l => applyPyListeners s1 l
      | none => s1
    .ok s2

/-- The synchronous body of `createElement(config)`: it hands
`initialize(config)` to `pauseOutputUntil` (that promise's rejection is
observed by the output pauser, not here), then looks the element up itself
and throws an `Error` whose message names the missing id, or registers an
element proxy for the found element — returned here — whose `call`
delegates to `processMessage`. -/
def createElement (doc : List (String × Element)) (config : Config) : Except JsError Element :=
  match lookupElem doc config.guid with
  | none => .error (.error ("No element found with id: " ++ config.guid))
  | some el => .ok el

/-! # Theorems -/

/-! ## Association-list field lemmas -/

theorem lookupField_setField_self (l : List (String × JsVal)) (k : String) (v : JsVal) :
    lookupField (setField l k v) k = some v := by
  induction l with
  | nil => simp [setField, lookupField]
  | cons p rest ih =>
    by_cases h : p.1 = k
    · simp [setField, lookupField, h]
    · simp [setField, lookupField, h, ih]

theorem lookupField_setField_ne (l : List (String × JsVal)) (k k' : String) (v : JsVal)
    (h : k' ≠ k) : lookupField (setField l k v) k' = lookupField l k' := by
  have hkk : k ≠ k' := fun hh => h hh.symm
  induction l with
  | nil => simp [setField, lookupField, hkk]
  | cons p rest ih =>
    by_cases hp : p.1 = k
    · simp [setField, lookupField, hp, hkk]
    · simp [setField, lookupField, hp, ih]

theorem broadcastProxy_msgAfter (respId : String) (msg : List (String × JsVal))
    (d : Option JsVal) (trace : List (Nat × ChanMsg)) :
    (broadcastProxy respId msg d trace).msgAfter = setField msg "reply" (JsVal.str respId) := by
  unfold broadcastProxy
  dsimp only
  split
  · split
    · split <;> rfl
    · rfl
    · rfl
    · rfl
  · rfl

/-! ## Frame-walk lemmas and claims -/

theorem findProxy_append_of_no_match {π : Type} (id : String)
    (pre rest : List (FrameAccess π)) (h : ∀ f ∈ pre, frameMatch id f = none) :
    findProxy id (pre ++ rest) = findProxy id rest := by
  induction pre with
  | nil => rfl
  | cons f pre ih =>
    have hf : frameMatch id f = none := h f (by simp)
    simp only [List.cons_append, findProxy, hf]
    exact ih (fun g hg => h g (by simp [hg]))

theorem findProxy_eq_none_of_no_match {π : Type} (id : String)
    (frames : List (FrameAccess π)) (h : ∀ f ∈ frames, frameMatch id f = none) :
    findProxy id frames = none := by
  have := findProxy_append_of_no_match id frames [] h
  simpa using this

/-- C1: the frame-walk `proxy` consults the sibling frames in index order,
swallowing access errors; the first frame whose registry contains `id`
decides the call, frames after it are irrelevant, and the result is exactly
that proxy's `call(msg)` value — a rejection (`Except.error`) included. -/
theorem frameWalk_first_match {μ ε ρ : Type}
    (pre post : List (FrameAccess (μ → Except ε ρ)))
    (elements : String → Option (μ → Except ε ρ)) (id : String)
    (p : μ → Except ε ρ) (msg : μ) (d : ρ)
    (hpre : ∀ f ∈ pre, frameMatch id f = none) (hp : elements id = some p) :
    frameWalkProxy (pre ++ FrameAccess.html elements :: post) id msg d = p msg := by
  unfold frameWalkProxy
  rw [findProxy_append_of_no_match id pre _ hpre]
  simp [findProxy, frameMatch, hp]

/-- Witness for C1: a cross-origin frame is skipped, the second frame's
registry wins and its rejection is propagated; the third frame (which
would have answered `ok 99`) is never consulted. -/
theorem frameWalk_first_match_witness :
    frameWalkProxy
      [FrameAccess.crossOrigin,
       FrameAccess.html (fun s => if s = "a" then some (fun _ => Except.error "boom") else none),
       FrameAccess.html (fun _ => some (fun _ => (Except.ok 99 : Except String Nat)))]
      "a" (5 : Nat) (0 : Nat) = Except.error "boom" := by
  have h := @frameWalk_first_match Nat String Nat
      [FrameAccess.crossOrigin]
      [FrameAccess.html (fun _ => some (fun _ => (Except.ok 99 : Except String Nat)))]
      (fun s => if s = "a" then some (fun _ => Except.error "boom") else none)
      "a" (fun _ => Except.error "boom") 5 0
      (by intro f hf; simp at hf; subst hf; rfl)
      (by simp)
  simpa using h

/-- C5: when no frame's registry contains `id`, the frame-walk `proxy`
resolves with exactly `defaultResponse` and does not throw; the result is
produced directly from the scan, with no asynchronous reply awaited. -/
theorem frameWalk_default {μ ε ρ : Type}
    (frames : List (FrameAccess (μ → Except ε ρ))) (id : String) (msg : μ) (d : ρ)
    (h : ∀ f ∈ frames, frameMatch id f = none) :
    frameWalkProxy frames id msg d = Except.ok d := by
  unfold frameWalkProxy
  rw [findProxy_eq_none_of_no_match id frames h]

/-- Witness for C5: a page with a cross-origin frame and a frame with an
empty registry answers the default. -/
theorem frameWalk_default_witness :
    frameWalkProxy
      [FrameAccess.crossOrigin,
       FrameAccess.html (fun _ => (none : Option (Nat → Except String Nat)))]
      "a" (5 : Nat) (7 : Nat) = Except.ok 7 := by
  refine frameWalk_default _ "a" 5 7 ?_
  intro f hf
  simp at hf
  rcases hf with h | h <;> subst h <;> rfl

/-! ## Broadcast claims -/

/-- Counterexample for C2: with `defaultResponse = 2`, a call whose only —
hence first — matching reply (method `"reply"`, id `"r"`, value `1`)
arrives at time 30 resolves with the default `2`, not with the reply's
value `1`: the outcome of this call is not decided by the first matching
reply, refuting the claim as universally stated. -/
theorem broadcast_reply_decides_cex :
    (broadcastProxy "r" [] (some (JsVal.num 2))
        [(30, { method := JsVal.str "reply", id := JsVal.str "r",
                error := JsVal.undef, value := JsVal.num 1 })]).result
      = some (Except.ok (JsVal.num 2)) ∧
    (broadcastProxy "r" [] (some (JsVal.num 2))
        [(30, { method := JsVal.str "reply", id := JsVal.str "r",
                error := JsVal.undef, value := JsVal.num 1 })]).result
      ≠ some (Except.ok (JsVal.num 1)) := by
  have h : (broadcastProxy "r" [] (some (JsVal.num 2))
      [(30, { method := JsVal.str "reply", id := JsVal.str "r",
              error := JsVal.undef, value := JsVal.num 1 })]).result
      = some (Except.ok (JsVal.num 2)) := by
    simp [broadcastProxy, setField, cloneable, List.find?, bcMatches, strictEqStr]
  refine ⟨h, ?_⟩
  rw [h]
  simp

/-- C2 (amended): when the reply listener wins the race — the first
matching incoming message arrives before the 20-unit timer, or no
`defaultResponse` was supplied — and the message posted successfully, the
call's outcome is decided by that first matching message: a truthy `error`
field rejects the call with an error carrying the reply's error text,
otherwise it resolves with the reply's `value`; messages failing the
method/id filter are ignored (they are not the `find?` hit). -/
theorem broadcast_reply_decides (respId : String) (msg : List (String × JsVal))
    (d : Option JsVal) (trace : List (Nat × ChanMsg)) (t : Nat) (m : ChanMsg)
    (hcl : cloneable (JsVal.obj (setField msg "reply" (JsVal.str respId))) = true)
    (hfind : trace.find? (fun tm => bcMatches respId tm.2) = some (t, m))
    (hwin : d = none ∨ t < 20) :
    (broadcastProxy respId msg d trace).result =
      some (if truthy m.error then Except.error (JsError.error (jsToString m.error))
            else Except.ok m.value) := by
  unfold broadcastProxy
  dsimp only
  rw [if_pos hcl, hfind]
  rcases hwin with hd | ht
  · subst hd
    simp [replyOutcome]
  · cases d with
    | none => simp [replyOutcome]
    | some v => simp [ht, replyOutcome]

/-- Witness for C2 (amended): a non-matching method at time 1 and a
non-matching id at time 5 are ignored; the matching reply at time 6
carries `error: "boom"` and the call rejects with that message even though
a default response was supplied. -/
theorem broadcast_reply_decides_witness :
    (broadcastProxy "r" [("method", JsVal.str "call")] (some (JsVal.num 7))
        [(1, { method := JsVal.str "other", id := JsVal.str "r",
               error := JsVal.undef, value := JsVal.num 5 }),
         (5, { method := JsVal.str "reply", id := JsVal.str "q",
               error := JsVal.undef, value := JsVal.num 6 }),
         (6, { method := JsVal.str "reply", id := JsVal.str "r",
               error := JsVal.str "boom", value := JsVal.undef })]).result
      = some (Except.error (JsError.error "boom")) := by
  have h := broadcast_reply_decides "r" [("method", JsVal.str "call")] (some (JsVal.num 7))
      [(1, { method := JsVal.str "other", id := JsVal.str "r",
             error := JsVal.undef, value := JsVal.num 5 }),
       (5, { method := JsVal.str "reply", id := JsVal.str "q",
             error := JsVal.undef, value := JsVal.num 6 }),
       (6, { method := JsVal.str "reply", id := JsVal.str "r",
             error := JsVal.str "boom", value := JsVal.undef })]
      6 { method := JsVal.str "reply", id := JsVal.str "r",
          error := JsVal.str "boom", value := JsVal.undef }
      (by simp [setField, cloneable])
      (by simp [List.find?, bcMatches, strictEqStr])
      (Or.inr (by decide))
  simpa [truthy, jsToString] using h

/-- Counterexample for C3: a message holding a function value is not
structured-cloneable, so `bc.postMessage(msg)` — which sits before the
`try`/`finally` — throws `DataCloneError`; the call exits by rejection,
yet the channel opened at the start is never closed. -/
theorem broadcast_channel_close_cex :
    (broadcastProxy "r" [("f", JsVal.fn 0)] none []).result
      = some (Except.error JsError.dataCloneError) ∧
    (broadcastProxy "r" [] none []).result = none ∧
    (broadcastProxy "r" [("f", JsVal.fn 0)] none []).channelClosed = false := by
  refine ⟨?_, ?_, ?_⟩ <;>
    simp [broadcastProxy, setField, cloneable, List.find?]

/-- C3 (amended): whenever the posted message is structured-cloneable (so
`postMessage` does not throw) and the call settles at all, the channel is
closed — on the reply path, the error-rejection path and the timeout path
alike; only a `postMessage` failure (or a never-settling call) leaves the
channel open. -/
theorem broadcast_channel_close (respId : String) (msg : List (String × JsVal))
    (d : Option JsVal) (trace : List (Nat × ChanMsg))
    (hcl : cloneable (JsVal.obj (setField msg "reply" (JsVal.str respId))) = true)
    (hsettle : (broadcastProxy respId msg d trace).result ≠ none) :
    (broadcastProxy respId msg d trace).channelClosed = true := by
  unfold broadcastProxy at hsettle ⊢
  dsimp only at hsettle ⊢
  rw [if_pos hcl] at hsettle ⊢
  rcases hfind : trace.find? (fun tm => bcMatches respId tm.2) with _ | ⟨t, m⟩ <;>
    rw [hfind] at hsettle ⊢ <;> cases d
  · simp at hsettle
  · rfl
  · rfl
  · by_cases ht : t < 20 <;> simp [ht]

/-- Witness for C3 (amended): an error-carrying reply at time 3 makes the
call reject, and the channel is closed on that exit path. -/
theorem broadcast_channel_close_witness :
    (broadcastProxy "r" [] none
        [(3, { method := JsVal.str "reply", id := JsVal.str "r",
               error := JsVal.str "x", value := JsVal.undef })]).channelClosed = true := by
  refine broadcast_channel_close "r" [] none _ (by simp [setField, cloneable]) ?_
  simp [broadcastProxy, setField, cloneable, List.find?, bcMatches, strictEqStr,
    replyOutcome]

/-- C6: when no incoming message matches the reply filter, the call
resolves with the default exactly at the 20-unit timer — and only if a
`defaultResponse` was supplied; with `defaultResponse` absent there is no
timer and the call never settles. -/
theorem broadcast_timer_default (respId : String) (msg : List (String × JsVal))
    (d : Option JsVal) (trace : List (Nat × ChanMsg))
    (hcl : cloneable (JsVal.obj (setField msg "reply" (JsVal.str respId))) = true)
    (hnone : trace.find? (fun tm => bcMatches respId tm.2) = none) :
    (∀ v, d = some v →
        (broadcastProxy respId msg d trace).result = some (Except.ok v) ∧
        (broadcastProxy respId msg d trace).settleTime = some 20) ∧
    (d = none →
        (broadcastProxy respId msg d trace).result = none ∧
        (broadcastProxy respId msg d trace).settleTime = none) := by
  unfold broadcastProxy
  dsimp only
  rw [if_pos hcl, hnone]
  constructor
  · rintro v rfl
    exact ⟨rfl, rfl⟩
  · rintro rfl
    exact ⟨rfl, rfl⟩

/-- Witness for C6: with only a non-matching message on the channel and
default `3`, the call resolves to `3` at time 20. -/
theorem broadcast_timer_default_witness :
    (broadcastProxy "r" [] (some (JsVal.num 3))
        [(1, { method := JsVal.str "chat", id := JsVal.str "r",
               error := JsVal.undef, value := JsVal.num 9 })]).result
      = some (Except.ok (JsVal.num 3)) ∧
    (broadcastProxy "r" [] (some (JsVal.num 3))
        [(1, { method := JsVal.str "chat", id := JsVal.str "r",
               error := JsVal.undef, value := JsVal.num 9 })]).settleTime
      = some 20 := by
  exact (broadcast_timer_default "r" [] (some (JsVal.num 3))
      [(1, { method := JsVal.str "chat", id := JsVal.str "r",
             error := JsVal.undef, value := JsVal.num 9 })]
      (by simp [setField, cloneable])
      (by simp [List.find?, bcMatches, strictEqStr])).1
    (JsVal.num 3) rfl

/-- C10: the broadcast `proxy` mutates the caller's message in place:
after any call — whichever way it settles, and even when `postMessage`
throws — the caller's message object carries the generated correlation
identifier in its `reply` field, and every other field is unchanged. -/
theorem broadcast_writes_reply (respId : String) (msg : List (String × JsVal))
    (d : Option JsVal) (trace : List (Nat × ChanMsg)) :
    lookupField (broadcastProxy respId msg d trace).msgAfter "reply"
        = some (JsVal.str respId) ∧
    ∀ k, k ≠ "reply" →
      lookupField (broadcastProxy respId msg d trace).msgAfter k = lookupField msg k := by
  rw [broadcastProxy_msgAfter]
  exact ⟨lookupField_setField_self msg "reply" _,
    fun k hk => lookupField_setField_ne msg "reply" k _ hk⟩

/-- Witness for C10: a concrete call rewrites `reply` to the correlation
id and leaves the `method` field intact. -/
theorem broadcast_writes_reply_witness :
    lookupField (broadcastProxy "r7" [("method", JsVal.str "call"), ("reply", JsVal.null)]
        none []).msgAfter "reply" = some (JsVal.str "r7") ∧
    lookupField (broadcastProxy "r7" [("method", JsVal.str "call"), ("reply", JsVal.null)]
        none []).msgAfter "method" = some (JsVal.str "call") := by
  refine ⟨(broadcast_writes_reply "r7" [("method", JsVal.str "call"), ("reply", JsVal.null)]
      none []).1, ?_⟩
  have h := (broadcast_writes_reply "r7" [("method", JsVal.str "call"), ("reply", JsVal.null)]
      none []).2 "method" (by decide)
  rw [h]
  simp [lookupField]

/-! ## Registration claims -/

/-- C4 (code bug): for a config whose `guid` matches no element, the
synchronous `createElement` check does fail with the claimed error naming
the missing id; but the deferred `initialize` step fails with
`ReferenceError: guid is not defined` — the intended message exists in the
source, yet its template literal reads the undeclared `guid` rather than
`config.guid`, so the error `initialize` raises is not a "no element
found" error and names no id. -/
theorem register_missing_element (doc : List (String × Element))
    (callbacks : List (JsVal × Nat)) (nextId : Nat) (config : Config)
    (h : lookupElem doc config.guid = none) :
    createElement doc config
        = .error (.error ("No element found with id: " ++ config.guid)) ∧
    initElem doc callbacks nextId config
        = .error (.referenceError "guid is not defined") ∧
    initElem doc callbacks nextId config
        ≠ .error (.error ("No element found with id: " ++ config.guid)) := by
  refine ⟨?_, ?_, ?_⟩ <;> simp [createElement, initElem, h]

/-- Witness for C4: an empty document and guid `"g1"`. -/
theorem register_missing_element_witness :
    createElement []
        { guid := "g1", tag := "div", attributes := none, properties := none,
          js_listeners := none, py_listeners := none }
      = .error (.error "No element found with id: g1") ∧
    initElem [] [] 0
        { guid := "g1", tag := "div", attributes := none, properties := none,
          js_listeners := none, py_listeners := none }
      = .error (.referenceError "guid is not defined") := by
  have h := register_missing_element [] [] 0
      { guid := "g1", tag := "div", attributes := none, properties := none,
        js_listeners := none, py_listeners := none } rfl
  exact ⟨h.1, h.2.1⟩

/-! ## Dispatcher claims -/

theorem getLastD_cons' {α : Type} (b : α) (l : List α) (a : α) :
    (b :: l).getLastD a = l.getLastD b := by
  cases l <;> simp [List.getLastD]

theorem setAtPath_walkPath (path : List String) (t : JsVal) (k : String) (v : JsVal)
    (h : ownerIsObj t path = true) :
    ∃ f t2, walkPath t path = .ok (JsVal.obj f) ∧
            setAtPath t path k v = .ok t2 ∧
            walkPath t2 path = .ok (JsVal.obj (setField f k v)) := by
  induction path generalizing t with
  | nil =>
    cases t <;> simp [ownerIsObj] at h
    case obj fields => exact ⟨fields, JsVal.obj (setField fields k v), rfl, rfl, rfl⟩
  | cons p rest ih =>
    cases t <;> simp [ownerIsObj] at h
    case obj fields =>
      obtain ⟨f, c2, hw, hsp, hw2⟩ := ih _ h
      refine ⟨f, JsVal.obj (setField fields p c2), ?_, ?_, ?_⟩
      · simp [walkPath, getProp, hw]
      · simp [setAtPath, getProp, hsp]
      · simp [walkPath, getProp, lookupField_setField_self, hw2]

theorem dotWalk_eq_walkPath (segs : List String) (t : JsVal) (m : String) :
    dotWalk t (some m) segs =
      match walkPath t ((m :: segs).dropLast) with
      | .error e => .error e
      | .ok o => .ok (o, some (segs.getLastD m)) := by
  induction segs generalizing t m with
  | nil => simp [dotWalk, walkPath, List.getLastD]
  | cons n rest ih =>
    have hd : (m :: n :: rest).dropLast = m :: (n :: rest).dropLast := rfl
    rw [hd]
    cases hg : getProp t m with
    | error e => simp [dotWalk, walkPath, hg]
    | ok o =>
      simp only [dotWalk, walkPath, hg]
      rw [ih]
      rw [getLastD_cons']

theorem dotAccess_eq_walkPath (t : JsVal) (accessor : String) :
    dotAccess t accessor =
      match walkPath t ((splitDots accessor.data).dropLast) with
      | .error e => .error e
      | .ok o => .ok (o, lastSeg (splitDots accessor.data)) := by
  unfold dotAccess
  cases hs : splitDots accessor.data with
  | nil => simp [dotWalk, walkPath, lastSeg, List.getLastD]
  | cons s0 rest =>
    have h1 : dotWalk t none (s0 :: rest) = dotWalk t (some s0) rest := rfl
    rw [h1, dotWalk_eq_walkPath]
    cases walkPath t ((s0 :: rest).dropLast) with
    | error e => rfl
    | ok o =>
      show Except.ok (o, rest.getLastD s0) = Except.ok (o, lastSeg (s0 :: rest))
      rw [lastSeg, getLastD_cons']

/-- C7: dispatching `setProperty` over a dot path assigns the value and
answers `true`, and a subsequent `getProperty` over the same path on the
resulting element answers exactly the assigned value — for every path
whose walked segments resolve to the owning object (a path with no `.`
owns on the element itself, the zero-segment walk). -/
theorem setProperty_getProperty_roundtrip
    (oracle : Nat → List JsVal → Except JsError JsVal) (s : DispatchState)
    (name : String) (v w : JsVal)
    (h : ownerIsObj s.element.props ((splitDots name.data).dropLast) = true) :
    (processMessage oracle s { method := "setProperty", name := name, value := v }).map Prod.fst
        = Except.ok (JsVal.bool true) ∧
    dispatchTwo oracle s { method := "setProperty", name := name, value := v }
        { method := "getProperty", name := name, value := w }
      = Except.ok v := by
  obtain ⟨f, t2, hw, hsp, hw2⟩ :=
    setAtPath_walkPath ((splitDots name.data).dropLast) s.element.props
      (lastSeg (splitDots name.data)) v h
  have hset : processMessage oracle s { method := "setProperty", name := name, value := v }
      = .ok (JsVal.bool true, { s with element := { s.element with props := t2 } }) := by
    simp [processMessage, hsp]
  have hget : processMessage oracle { s with element := { s.element with props := t2 } }
      { method := "getProperty", name := name, value := w }
      = .ok (v, { s with element := { s.element with props := t2 } }) := by
    simp [processMessage, dotAccess_eq_walkPath, hw2, getProp, lookupField_setField_self]
  exact ⟨by simp [hset, Except.map], by simp [dispatchTwo, hset, hget]⟩

/-- Witness for C7: `style.display` starts `"none"`, is set to `"block"`,
and reads back `"block"`. -/
theorem setProperty_getProperty_roundtrip_witness :
    (processMessage (fun _ _ => Except.error (JsError.error "no functions"))
        { element := { props := JsVal.obj [("style", JsVal.obj [("display", JsVal.str "none")])],
                       attrs := [], listeners := [] },
          callbacks := [], nextId := 0 }
        { method := "setProperty", name := "style.display", value := JsVal.str "block" }).map Prod.fst
      = Except.ok (JsVal.bool true) ∧
    dispatchTwo (fun _ _ => Except.error (JsError.error "no functions"))
        { element := { props := JsVal.obj [("style", JsVal.obj [("display", JsVal.str "none")])],
                       attrs := [], listeners := [] },
          callbacks := [], nextId := 0 }
        { method := "setProperty", name := "style.display", value := JsVal.str "block" }
        { method := "getProperty", name := "style.display", value := JsVal.undef }
      = Except.ok (JsVal.str "block") :=
  setProperty_getProperty_roundtrip
    (fun _ _ => Except.error (JsError.error "no functions"))
    { element := { props := JsVal.obj [("style", JsVal.obj [("display", JsVal.str "none")])],
                   attrs := [], listeners := [] },
      callbacks := [], nextId := 0 }
    "style.display" (JsVal.str "block") JsVal.undef (by decide)

theorem lookupCb_eraseCb (l : List (JsVal × Nat)) (key : JsVal) :
    lookupCb (eraseCb l key) key = none := by
  induction l with
  | nil => rfl
  | cons p rest ih =>
    by_cases hp : sameValueZero p.1 key
    · simpa [eraseCb, List.filter_cons, hp] using ih
    · simpa [eraseCb, List.filter_cons, hp, lookupCb] using ih

theorem not_mem_removeListener (ls : List (String × Nat)) (ty : String) (cb : Nat) :
    (ty, cb) ∉ removeListener ls ty cb := by
  intro hmem
  have h := List.of_mem_filter hmem
  simp at h

/-- C8: `removeEventListener` with an unregistered key throws "Listener is
not defined"; with a registered key it answers `true` exactly once —
detaching that callback from the element and deleting the registry entry —
after which an immediate second removal with the same key throws. -/
theorem removeEventListener_spec (oracle : Nat → List JsVal → Except JsError JsVal)
    (s : DispatchState) (ty : String) (key : JsVal) :
    (lookupCb s.callbacks key = none →
      processMessage oracle s { method := "removeEventListener", name := ty, value := key }
        = .error (.error "Listener is not defined")) ∧
    (∀ cb, lookupCb s.callbacks key = some cb →
      processMessage oracle s { method := "removeEventListener", name := ty, value := key }
        = .ok (JsVal.bool true,
            { s with
              element := { s.element with
                listeners := removeListener s.element.listeners ty cb },
              callbacks := eraseCb s.callbacks key }) ∧
      (ty, cb) ∉ removeListener s.element.listeners ty cb ∧
      lookupCb (eraseCb s.callbacks key) key = none ∧
      processMessage oracle
          { s with
            element := { s.element with
              listeners := removeListener s.element.listeners ty cb },
            callbacks := eraseCb s.callbacks key }
          { method := "removeEventListener", name := ty, value := key }
        = .error (.error "Listener is not defined")) := by
  constructor
  · intro h
    simp [processMessage, h]
  · intro cb hcb
    refine ⟨by simp [processMessage, hcb], not_mem_removeListener _ ty cb, lookupCb_eraseCb _ key, ?_⟩
    simp [processMessage, lookupCb_eraseCb]

/-- Witness for C8: removing key `"cbA"` detaches the only listener and
empties the registry; the immediate second removal throws. -/
theorem removeEventListener_spec_witness :
    processMessage (fun _ _ => Except.error (JsError.error "no functions"))
        { element := { props := JsVal.obj [], attrs := [], listeners := [("click", 0)] },
          callbacks := [(JsVal.str "cbA", 0)], nextId := 1 }
        { method := "removeEventListener", name := "click", value := JsVal.str "cbA" }
      = Except.ok (JsVal.bool true,
          { element := { props := JsVal.obj [], attrs := [], listeners := [] },
            callbacks := [], nextId := 1 }) ∧
    processMessage (fun _ _ => Except.error (JsError.error "no functions"))
        { element := { props := JsVal.obj [], attrs := [], listeners := [] },
          callbacks := [], nextId := 1 }
        { method := "removeEventListener", name := "click", value := JsVal.str "cbA" }
      = Except.error (JsError.error "Listener is not defined") := by
  have h := (removeEventListener_spec (fun _ _ => Except.error (JsError.error "no functions"))
      { element := { props := JsVal.obj [], attrs := [], listeners := [("click", 0)] },
        callbacks := [(JsVal.str "cbA", 0)], nextId := 1 }
      "click" (JsVal.str "cbA")).2 0 (by decide)
  exact ⟨h.1, h.2.2.2⟩

theorem mem_setCb_val (l : List (JsVal × Nat)) (key : JsVal) (c : Nat)
    (k' : JsVal) (c' : Nat) (h : (k', c') ∈ setCb l key c) :
    (k', c') ∈ l ∨ c' = c := by
  induction l with
  | nil =>
    simp [setCb] at h
    exact Or.inr h.2
  | cons p rest ih =>
    obtain ⟨k0, c0⟩ := p
    by_cases hp : sameValueZero k0 key
    · simp [setCb, hp] at h
      rcases h with ⟨h1, h2⟩ | h
      · exact Or.inr h2
      · exact Or.inl (by simp [h])
    · simp [setCb, hp] at h
      rcases h with ⟨h1, h2⟩ | h
      · exact Or.inl (by simp [h1, h2])
      · rcases ih h with h | h
        · exact Or.inl (by simp [h])
        · exact Or.inr h

theorem mem_setCb (l : List (JsVal × Nat)) (key : JsVal) (c : Nat)
    (k' : JsVal) (c' : Nat) (hk : sameValueZero key key = true)
    (h : (k', c') ∈ setCb l key c) :
    (k', c') ∈ l ∨ (c' = c ∧ sameValueZero k' key = true) := by
  induction l with
  | nil =>
    simp [setCb] at h
    exact Or.inr ⟨h.2, by rw [h.1]; exact hk⟩
  | cons p rest ih =>
    obtain ⟨k0, c0⟩ := p
    by_cases hp : sameValueZero k0 key
    · simp [setCb, hp] at h
      rcases h with ⟨h1, h2⟩ | h
      · exact Or.inr ⟨h2, by rw [h1]; exact hp⟩
      · exact Or.inl (by simp [h])
    · simp [setCb, hp] at h
      rcases h with ⟨h1, h2⟩ | h
      · exact Or.inl (by simp [h1, h2])
      · rcases ih h with h | h
        · exact Or.inl (by simp [h])
        · exact Or.inr h

theorem lookupCb_setCb (l : List (JsVal × Nat)) (key : JsVal) (c : Nat)
    (hk : sameValueZero key key = true) :
    lookupCb (setCb l key c) key = some c := by
  induction l with
  | nil => simp [setCb, lookupCb, hk]
  | cons p rest ih =>
    obtain ⟨k0, c0⟩ := p
    by_cases hp : sameValueZero k0 key
    · simp [setCb, lookupCb, hp]
    · simp [setCb, lookupCb, hp, ih]

theorem lookupCb_mem (l : List (JsVal × Nat)) (key : JsVal) (cb : Nat)
    (h : lookupCb l key = some cb) : ∃ k, (k, cb) ∈ l := by
  induction l with
  | nil => simp [lookupCb] at h
  | cons p rest ih =>
    obtain ⟨k0, c0⟩ := p
    by_cases hp : sameValueZero k0 key
    · simp [lookupCb, hp] at h
      exact ⟨k0, by simp [h]⟩
    · simp [lookupCb, hp] at h
      obtain ⟨k, hk⟩ := ih h
      exact ⟨k, by simp [hk]⟩

theorem mem_addListener (ls : List (String × Nat)) (ty : String) (cb : Nat)
    (x : String × Nat) (h : x ∈ ls) : x ∈ addListener ls ty cb := by
  unfold addListener
  split
  · exact h
  · exact List.mem_append_left _ h

theorem mem_removeListener (ls : List (String × Nat)) (ty : String) (cb : Nat)
    (t : String) (c : Nat) (h : (t, c) ∈ ls) (hne : c ≠ cb) :
    (t, c) ∈ removeListener ls ty cb := by
  refine List.mem_filter.2 ⟨h, ?_⟩
  simp [hne]

theorem mem_of_mem_eraseCb (l : List (JsVal × Nat)) (key : JsVal)
    (x : JsVal × Nat) (h : x ∈ eraseCb l key) : x ∈ l :=
  List.mem_of_mem_filter h

/-- Dispatching any one message preserves an orphaned-but-attached
closure: nothing the dispatcher accepts can detach it or re-enter it into
the registry. -/
theorem orphanAttached_step (oracle : Nat → List JsVal → Except JsError JsVal)
    (ty : String) (c : Nat) (s s2 : DispatchState) (m : Msg) (r : JsVal)
    (h : orphanAttached ty c s) (hp : processMessage oracle s m = .ok (r, s2)) :
    orphanAttached ty c s2 := by
  obtain ⟨hmem, hcb, hlt⟩ := h
  unfold processMessage at hp
  split at hp
  -- setProperty
  · split at hp
    · simp at hp
    · simp only [Except.ok.injEq, Prod.mk.injEq] at hp
      obtain ⟨-, hs2⟩ := hp
      subst hs2
      exact ⟨hmem, hcb, hlt⟩
  -- getProperty
  · split at hp
    · simp at hp
    · split at hp
      · simp at hp
      · simp only [Except.ok.injEq, Prod.mk.injEq] at hp
        obtain ⟨-, hs2⟩ := hp
        subst hs2
        exact ⟨hmem, hcb, hlt⟩
  -- setAttribute
  · simp only [Except.ok.injEq, Prod.mk.injEq] at hp
    obtain ⟨-, hs2⟩ := hp
    subst hs2
    exact ⟨hmem, hcb, hlt⟩
  -- getAttribute
  · simp only [Except.ok.injEq, Prod.mk.injEq] at hp
    obtain ⟨-, hs2⟩ := hp
    subst hs2
    exact ⟨hmem, hcb, hlt⟩
  -- call
  · split at hp
    · simp at hp
    · split at hp
      · simp at hp
      · split at hp
        · simp at hp
        · split at hp
          · split at hp
            · simp at hp
            · simp only [Except.ok.injEq, Prod.mk.injEq] at hp
              obtain ⟨-, hs2⟩ := hp
              subst hs2
              exact ⟨hmem, hcb, hlt⟩
          · simp at hp
  -- addPythonEventListener
  · simp only [Except.ok.injEq, Prod.mk.injEq] at hp
    obtain ⟨-, hs2⟩ := hp
    subst hs2
    refine ⟨mem_addListener _ _ _ _ hmem, ?_, Nat.lt_succ_of_lt hlt⟩
    intro k c' hm
    rcases mem_setCb_val _ _ _ _ _ hm with hm | hm
    · exact hcb k c' hm
    · omega
  -- addJsEventListener
  · simp only [Except.ok.injEq, Prod.mk.injEq] at hp
    obtain ⟨-, hs2⟩ := hp
    subst hs2
    refine ⟨mem_addListener _ _ _ _ hmem, ?_, Nat.lt_succ_of_lt hlt⟩
    intro k c' hm
    rcases mem_setCb_val _ _ _ _ _ hm with hm | hm
    · exact hcb k c' hm
    · omega
  -- removeEventListener
  · split at hp
    · simp only [Except.ok.injEq, Prod.mk.injEq] at hp
      obtain ⟨-, hs2⟩ := hp
      subst hs2
      rename_i cb0 hcb0
      obtain ⟨k0, hk0⟩ := lookupCb_mem _ _ _ hcb0
      refine ⟨mem_removeListener _ _ _ _ _ hmem (Ne.symm (hcb k0 cb0 hk0)), ?_, hlt⟩
      · intro k c' hm
        exact hcb k c' (mem_of_mem_eraseCb _ _ _ hm)
    · simp at hp
  -- exists
  · simp only [Except.ok.injEq, Prod.mk.injEq] at hp
    obtain ⟨-, hs2⟩ := hp
    subst hs2
    exact ⟨hmem, hcb, hlt⟩
  -- invalid method
  · simp at hp

/-- Orphaned-but-attached closures survive any sequence of dispatched
messages. -/
theorem orphanAttached_runMsgs (oracle : Nat → List JsVal → Except JsError JsVal)
    (ty : String) (c : Nat) (s : DispatchState) (msgs : List Msg)
    (h : orphanAttached ty c s) : orphanAttached ty c (runMsgs oracle s msgs) := by
  induction msgs generalizing s with
  | nil => exact h
  | cons m rest ih =>
    unfold runMsgs
    cases hp : processMessage oracle s m with
    | ok pr =>
      obtain ⟨rv, s2⟩ := pr
      exact ih s2 (orphanAttached_step oracle ty c s s2 m rv h hp)
    | error e => exact ih s h

/-- C9: two inline-listener registrations with identical source text key
the registry by that raw text, so the second overwrites the first entry
while both fresh closures stay attached to the element; one
`removeEventListener` with that key then answers `true`, detaches only the
later closure and deletes the key; an immediate repeat removal throws; and
the earlier closure stays attached under every further sequence of
dispatched messages — the registry can never name it again, so no
remaining dispatch can detach it. -/
theorem duplicate_source_overwrites
    (oracle : Nat → List JsVal → Except JsError JsVal) (s : DispatchState)
    (ty src : String)
    (hL : ∀ t c, (t, c) ∈ s.element.listeners → c < s.nextId)
    (hC : ∀ k c, (k, c) ∈ s.callbacks → c < s.nextId) :
    (ty, s.nextId) ∈ (addJsEventListener (addJsEventListener s ty (JsVal.str src))
        ty (JsVal.str src)).element.listeners ∧
    (ty, s.nextId + 1) ∈ (addJsEventListener (addJsEventListener s ty (JsVal.str src))
        ty (JsVal.str src)).element.listeners ∧
    lookupCb (addJsEventListener (addJsEventListener s ty (JsVal.str src))
        ty (JsVal.str src)).callbacks (JsVal.str src) = some (s.nextId + 1) ∧
    ∃ s3,
      processMessage oracle
          (addJsEventListener (addJsEventListener s ty (JsVal.str src)) ty (JsVal.str src))
          { method := "removeEventListener", name := ty, value := JsVal.str src }
        = .ok (JsVal.bool true, s3) ∧
      (ty, s.nextId + 1) ∉ s3.element.listeners ∧
      (ty, s.nextId) ∈ s3.element.listeners ∧
      lookupCb s3.callbacks (JsVal.str src) = none ∧
      processMessage oracle s3
          { method := "removeEventListener", name := ty, value := JsVal.str src }
        = .error (.error "Listener is not defined") ∧
      ∀ oracle2 msgs, (ty, s.nextId) ∈ (runMsgs oracle2 s3 msgs).element.listeners := by
  have hsvz : sameValueZero (JsVal.str src) (JsVal.str src) = true := by
    simp [sameValueZero]
  set S2 := addJsEventListener (addJsEventListener s ty (JsVal.str src)) ty (JsVal.str src)
    with hS2
  have hn1 : (ty, s.nextId) ∉ s.element.listeners :=
    fun hm => absurd (hL ty s.nextId hm) (lt_irrefl _)
  have e1 : (addJsEventListener s ty (JsVal.str src)).element.listeners
      = s.element.listeners ++ [(ty, s.nextId)] := by
    simp [addJsEventListener, addListener, hn1]
  have hn2 : (ty, s.nextId + 1) ∉ s.element.listeners ++ [(ty, s.nextId)] := by
    intro hm
    rcases List.mem_append.1 hm with hm | hm
    · have := hL _ _ hm; omega
    · simp at hm
  have e2 : S2.element.listeners
      = (s.element.listeners ++ [(ty, s.nextId)]) ++ [(ty, s.nextId + 1)] := by
    show addListener (addJsEventListener s ty (JsVal.str src)).element.listeners ty
        (addJsEventListener s ty (JsVal.str src)).nextId = _
    rw [e1]
    show addListener (s.element.listeners ++ [(ty, s.nextId)]) ty (s.nextId + 1) = _
    simp [addListener, hn2]
  have hlk2 : lookupCb S2.callbacks (JsVal.str src) = some (s.nextId + 1) := by
    show lookupCb (setCb (setCb s.callbacks (JsVal.str src) s.nextId)
        (JsVal.str src) (s.nextId + 1)) (JsVal.str src) = _
    exact lookupCb_setCb _ _ _ hsvz
  have m1 : (ty, s.nextId) ∈ S2.element.listeners := by rw [e2]; simp
  have m2 : (ty, s.nextId + 1) ∈ S2.element.listeners := by rw [e2]; simp
  have hrm : processMessage oracle S2
      { method := "removeEventListener", name := ty, value := JsVal.str src }
      = .ok (JsVal.bool true,
          { S2 with
            element := { S2.element with
              listeners := removeListener S2.element.listeners ty (s.nextId + 1) },
            callbacks := eraseCb S2.callbacks (JsVal.str src) }) := by
    simp [processMessage, hlk2]
  have hvals : ∀ k c', (k, c') ∈ eraseCb S2.callbacks (JsVal.str src) → c' ≠ s.nextId := by
    intro k c' hm
    have hkeep := List.of_mem_filter hm
    simp only [Bool.not_eq_eq_eq_not, Bool.not_true] at hkeep
    have hm' : (k, c') ∈ S2.callbacks := List.mem_of_mem_filter hm
    have hm2 : (k, c') ∈ setCb (setCb s.callbacks (JsVal.str src) s.nextId)
        (JsVal.str src) (s.nextId + 1) := hm'
    rcases mem_setCb _ _ _ _ _ hsvz hm2 with hm3 | ⟨-, hcontra⟩
    · rcases mem_setCb _ _ _ _ _ hsvz hm3 with hm4 | ⟨-, hcontra⟩
      · have := hC _ _ hm4; omega
      · rw [hcontra] at hkeep; simp at hkeep
    · rw [hcontra] at hkeep; simp at hkeep
  refine ⟨m1, m2, hlk2,
    { S2 with
      element := { S2.element with
        listeners := removeListener S2.element.listeners ty (s.nextId + 1) },
      callbacks := eraseCb S2.callbacks (JsVal.str src) }, hrm, ?_, ?_, ?_, ?_, ?_⟩
  · exact not_mem_removeListener _ ty (s.nextId + 1)
  · exact mem_removeListener _ _ _ _ _ m1 (by omega)
  · exact lookupCb_eraseCb _ _
  · simp [processMessage, lookupCb_eraseCb]
  · intro oracle2 msgs
    refine (orphanAttached_runMsgs oracle2 ty s.nextId _ msgs ?_).1
    exact ⟨mem_removeListener _ _ _ _ _ m1 (by omega), hvals,
      Nat.lt_succ_of_lt (Nat.lt_succ_self s.nextId)⟩

/-- Witness for C9: on an empty page state, registering `alert(1)` twice
under `click` leaves the registry naming only closure 1; after the one
successful removal, a repeat removal throws, and re-registering then
removing the same source again still leaves closure 0 attached. -/
theorem duplicate_source_overwrites_witness :
    lookupCb (addJsEventListener (addJsEventListener
        { element := { props := JsVal.obj [], attrs := [], listeners := [] },
          callbacks := [], nextId := 0 } "click" (JsVal.str "alert(1)"))
        "click" (JsVal.str "alert(1)")).callbacks (JsVal.str "alert(1)") = some 1 ∧
    ("click", 0) ∈ (runMsgs (fun _ _ => Except.error (JsError.error "no functions"))
        { element := { props := JsVal.obj [], attrs := [], listeners := [("click", 0)] },
          callbacks := [], nextId := 2 }
        [{ method := "addJsEventListener", name := "click", value := JsVal.str "alert(1)" },
         { method := "removeEventListener", name := "click", value := JsVal.str "alert(1)" }]).element.listeners ∧
    processMessage (fun _ _ => Except.error (JsError.error "no functions"))
        { element := { props := JsVal.obj [], attrs := [], listeners := [("click", 0)] },
          callbacks := [], nextId := 2 }
        { method := "removeEventListener", name := "click", value := JsVal.str "alert(1)" }
      = Except.error (JsError.error "Listener is not defined") := by
  obtain ⟨h1, h2, h3, s3, hrm, h4, h5, h6, h7, h8⟩ :=
    duplicate_source_overwrites (fun _ _ => Except.error (JsError.error "no functions"))
      { element := { props := JsVal.obj [], attrs := [], listeners := [] },
        callbacks := [], nextId := 0 }
      "click" "alert(1)" (by simp) (by simp)
  have hc : processMessage (fun _ _ => Except.error (JsError.error "no functions"))
      (addJsEventListener (addJsEventListener
        { element := { props := JsVal.obj [], attrs := [], listeners := [] },
          callbacks := [], nextId := 0 } "click" (JsVal.str "alert(1)"))
        "click" (JsVal.str "alert(1)"))
      { method := "removeEventListener", name := "click", value := JsVal.str "alert(1)" }
      = Except.ok (JsVal.bool true,
          { element := { props := JsVal.obj [], attrs := [], listeners := [("click", 0)] },
            callbacks := [], nextId := 2 }) := by rfl
  rw [hc] at hrm
  injection hrm with h
  injection h with ha hb
  subst hb
  exact ⟨h3, h8 (fun _ _ => Except.error (JsError.error "no functions"))
    [{ method := "addJsEventListener", name := "click", value := JsVal.str "alert(1)" },
     { method := "removeEventListener", name := "click", value := JsVal.str "alert(1)" }], h7⟩

end Colabtools
